import Mathlib

/-!
Verification of the daylight lookup-table program.

The program computes solar declination from a seven-term Fourier series in
the day angle, derives daylight hours from the sunrise hour-angle formula
with a fixed elevation correction of -0.833 degrees, classifies polar day
and polar night, tabulates one record per day of a year, and formats
durations as hours and minutes.

Calendar dates are modelled as a (year, day-of-year) pair, which corresponds
bijectively to the (year, month, day) values of the source's date objects;
the source reads dates only through `day_of_year`, constructs January 1
values, compares dates and steps one day at a time, all of which this model
reproduces.  Floating-point arithmetic is modelled by exact real arithmetic.
-/

namespace Daylight

/-- Proleptic Gregorian leap-year rule, as implemented by Python's
datetime module used in the source. -/
def isLeap (y : ℕ) : Bool := y % 4 == 0 && (y % 100 != 0 || y % 400 == 0)

/-- Number of days in a calendar year. -/
def daysInYear (y : ℕ) : ℕ := if isLeap y then 366 else 365

/-- A calendar date, as a year plus 1-based day-of-year. -/
structure Date where
  year : ℕ
  doy : ℕ
deriving DecidableEq, Repr

/-- Date comparison, the source's `d < end` on date objects. -/
def Date.lt (a b : Date) : Bool :=
  a.year < b.year || (a.year == b.year && a.doy < b.doy)

/-- Adding one day, the source's `d += timedelta(days=1)`. -/
def Date.next (d : Date) : Date :=
  if d.doy < daysInYear d.year then ⟨d.year, d.doy + 1⟩ else ⟨d.year + 1, 1⟩

/-- Day-of-year of a date, the source's `day_of_year` (strftime `%j`). -/
def day_of_year (d : Date) : ℕ := d.doy

/-- Degrees to radians, the source's `np.deg2rad`. -/
noncomputable def deg2rad (x : ℝ) : ℝ := x * Real.pi / 180

/-- Radians to degrees, the source's `np.rad2deg` / `np.degrees`. -/
noncomputable def rad2deg (x : ℝ) : ℝ := x * 180 / Real.pi

/-- The seven-term declination series as a function of the 1-based
day-of-year `n`; this is the body of the source's `solar_declination_rad`
after it extracts `n = day_of_year(d)`. -/
noncomputable def declSeries (n : ℕ) : ℝ :=
  let gamma := 2 * Real.pi * ((n : ℝ) - 1) / 365
  0.006918
    - 0.399912 * Real.cos gamma
    + 0.070257 * Real.sin gamma
    - 0.006758 * Real.cos (2 * gamma)
    + 0.000907 * Real.sin (2 * gamma)
    - 0.002697 * Real.cos (3 * gamma)
    + 0.001480 * Real.sin (3 * gamma)

/-- The source's `solar_declination_rad`: solar declination in radians for
a date, via the day angle `gamma = 2*pi*(n-1)/365`. -/
noncomputable def solar_declination_rad (d : Date) : ℝ :=
  declSeries (day_of_year d)

/-- The source's `calculate_daylight`: daylight hours and condition label
for a latitude in degrees and a date. -/
noncomputable def calculate_daylight (lat_deg : ℝ) (d : Date) : ℝ × String :=
  let phi := deg2rad lat_deg
  let delta := solar_declination_rad d
  let h0 := deg2rad (-0.833)
  let cos_H0 := (Real.sin h0 - Real.sin phi * Real.sin delta) /
    (Real.cos phi * Real.cos delta)
  if cos_H0 ≤ -1 then (24, "Polar Day")
  else if cos_H0 ≥ 1 then (0, "Polar Night")
  else (2 * rad2deg (Real.arccos cos_H0) / 15, "Normal Day")

/-- The quantity `cos_H0` computed inside `calculate_daylight`. -/
noncomputable def cosH0 (lat_deg : ℝ) (d : Date) : ℝ :=
  (Real.sin (deg2rad (-0.833)) -
      Real.sin (deg2rad lat_deg) * Real.sin (solar_declination_rad d)) /
    (Real.cos (deg2rad lat_deg) * Real.cos (solar_declination_rad d))

/-- One row of the lookup table written by `generate_lookup_table`: the
date, its day-of-year, the declination converted to degrees, the daylight
hours and the condition label (the 4-decimal string formatting and the ISO
date string of the CSV layer are I/O glue outside the tabulation logic). -/
structure Row where
  date : Date
  doy : ℕ
  declination_deg : ℝ
  daylight_hours : ℝ
  condition : String

/-- The loop body of `generate_lookup_table`: one call to
`calculate_daylight` and one to `solar_declination_rad` per day. -/
noncomputable def mkRow (lat_deg : ℝ) (d : Date) : Row :=
  let hc := calculate_daylight lat_deg d
  { date := d
    doy := day_of_year d
    declination_deg := rad2deg (solar_declination_rad d)
    daylight_hours := hc.1
    condition := hc.2 }

/-- The source's `while d < end` loop in `generate_lookup_table`. -/
noncomputable def tableLoop (lat_deg : ℝ) (d endD : Date) : List Row :=
  if Date.lt d endD then mkRow lat_deg d :: tableLoop lat_deg (Date.next d) endD
  else []
termination_by (endD.year + 1 - d.year, daysInYear d.year + 2 - d.doy)
decreasing_by
  simp only [Date.lt, Bool.or_eq_true, Bool.and_eq_true, decide_eq_true_eq,
    beq_iff_eq] at *
  unfold Date.next
  split
  case isTrue h =>
    exact Prod.Lex.right _ (by simp only []; omega)
  case isFalse h =>
    exact Prod.Lex.left _ _ (by simp only []; omega)

/-- The source's `generate_lookup_table`: iterate from January 1 of `year`
up to but excluding January 1 of `year + 1`. -/
noncomputable def generate_lookup_table (lat_deg : ℝ) (year : ℕ) : List Row :=
  tableLoop lat_deg ⟨year, 1⟩ ⟨year + 1, 1⟩

/-- Truncation toward zero, Python's `int()` applied to a float. -/
noncomputable def truncInt (x : ℝ) : ℤ :=
  if 0 ≤ x then ⌊x⌋ else ⌈x⌉

/-- Round half to even, the behaviour of `np.round` on a scalar. -/
noncomputable def roundHalfEven (x : ℝ) : ℤ :=
  let f := ⌊x⌋
  let r := x - f
  if r < 1 / 2 then f
  else if 1 / 2 < r then f + 1
  else if Even f then f else f + 1

/-- The source's `fmt_hours`: hours and minutes with a carry when the
minutes round to 60. -/
noncomputable def fmt_hours (hours : ℝ) : String :=
  let h := truncInt hours
  let m := roundHalfEven ((hours - h) * 60)
  if m = 60 then toString (h + 1) ++ "h " ++ toString (0 : ℤ) ++ "m"
  else toString h ++ "h " ++ toString m ++ "m"

/-- The rendering rule in the specification's words: `H = floor(hours)`,
`M` is `(hours - floor(hours)) * 60` rounded (half to even, the rounding of
the source's numeric library), and minutes that round to 60 carry into the
hour and reset to 0. -/
noncomputable def renderSpec (hours : ℝ) : String :=
  let hh := ⌊hours⌋
  let mm := roundHalfEven ((hours - ⌊hours⌋) * 60)
  if mm = 60 then toString (hh + 1) ++ "h " ++ toString (0 : ℤ) ++ "m"
  else toString hh ++ "h " ++ toString mm ++ "m"

theorem calculate_daylight_eq (lat_deg : ℝ) (d : Date) :
    calculate_daylight lat_deg d =
      if cosH0 lat_deg d ≤ -1 then (24, "Polar Day")
      else if cosH0 lat_deg d ≥ 1 then (0, "Polar Night")
      else (2 * rad2deg (Real.arccos (cosH0 lat_deg d)) / 15, "Normal Day") :=
  rfl

/-- C2: the declination estimator returns the seven-coefficient truncated
Fourier series in the day angle `gamma = 2*pi*(n-1)/365`, with the fixed
divisor 365; it is a total function of the date with no side effects. -/
theorem solar_declination_rad_spec (d : Date) :
    solar_declination_rad d =
      0.006918
        - 0.399912 * Real.cos (2 * Real.pi * ((day_of_year d : ℝ) - 1) / 365)
        + 0.070257 * Real.sin (2 * Real.pi * ((day_of_year d : ℝ) - 1) / 365)
        - 0.006758 *
          Real.cos (2 * (2 * Real.pi * ((day_of_year d : ℝ) - 1) / 365))
        + 0.000907 *
          Real.sin (2 * (2 * Real.pi * ((day_of_year d : ℝ) - 1) / 365))
        - 0.002697 *
          Real.cos (3 * (2 * Real.pi * ((day_of_year d : ℝ) - 1) / 365))
        + 0.001480 *
          Real.sin (3 * (2 * Real.pi * ((day_of_year d : ℝ) - 1) / 365)) :=
  rfl

/-- C6: the declination series is periodic with period 365 in the
day-of-year argument. -/
theorem declSeries_periodic (n : ℕ) : declSeries (n + 365) = declSeries n := by
  unfold declSeries
  push_cast
  have h : 2 * Real.pi * ((n : ℝ) + 365 - 1) / 365 =
      2 * Real.pi * ((n : ℝ) - 1) / 365 + 2 * Real.pi := by ring
  rw [h]
  generalize 2 * Real.pi * ((n : ℝ) - 1) / 365 = γ
  have c2 : Real.cos (2 * (γ + 2 * Real.pi)) = Real.cos (2 * γ) := by
    have e : 2 * (γ + 2 * Real.pi) = 2 * γ + 2 * Real.pi + 2 * Real.pi := by
      ring
    rw [e, Real.cos_add_two_pi, Real.cos_add_two_pi]
  have s2 : Real.sin (2 * (γ + 2 * Real.pi)) = Real.sin (2 * γ) := by
    have e : 2 * (γ + 2 * Real.pi) = 2 * γ + 2 * Real.pi + 2 * Real.pi := by
      ring
    rw [e, Real.sin_add_two_pi, Real.sin_add_two_pi]
  have c3 : Real.cos (3 * (γ + 2 * Real.pi)) = Real.cos (3 * γ) := by
    have e : 3 * (γ + 2 * Real.pi) =
        3 * γ + 2 * Real.pi + 2 * Real.pi + 2 * Real.pi := by ring
    rw [e, Real.cos_add_two_pi, Real.cos_add_two_pi, Real.cos_add_two_pi]
  have s3 : Real.sin (3 * (γ + 2 * Real.pi)) = Real.sin (3 * γ) := by
    have e : 3 * (γ + 2 * Real.pi) =
        3 * γ + 2 * Real.pi + 2 * Real.pi + 2 * Real.pi := by ring
    rw [e, Real.sin_add_two_pi, Real.sin_add_two_pi, Real.sin_add_two_pi]
  rw [Real.cos_add_two_pi, Real.sin_add_two_pi, c2, s2, c3, s3]

/-- C1: `calculate_daylight` computes `cos_H0` by the hour-angle formula and
classifies before taking any inverse cosine: at most -1 it is polar day with
24 hours, at least 1 it is polar night with 0 hours, and otherwise the
duration is twice the hour angle in degrees divided by 15. -/
theorem calculate_daylight_formula (lat_deg : ℝ) (d : Date) :
    (cosH0 lat_deg d ≤ -1 →
      calculate_daylight lat_deg d = (24, "Polar Day")) ∧
    (cosH0 lat_deg d ≥ 1 →
      calculate_daylight lat_deg d = (0, "Polar Night")) ∧
    (-1 < cosH0 lat_deg d ∧ cosH0 lat_deg d < 1 →
      calculate_daylight lat_deg d =
        (2 * rad2deg (Real.arccos (cosH0 lat_deg d)) / 15, "Normal Day")) := by
  refine ⟨fun h => ?_, fun h => ?_, fun h => ?_⟩
  · rw [calculate_daylight_eq, if_pos h]
  · rw [calculate_daylight_eq, if_neg (by intro hc; linarith), if_pos h]
  · rw [calculate_daylight_eq, if_neg (not_le.mpr h.1), if_neg (not_le.mpr h.2)]

/-- C9: on nonnegative durations (Python's `int` truncation and the floor
of the specification agree there) `fmt_hours` renders exactly the
specification's `{H}h {M}m` rule with the carry at 60 minutes. -/
theorem fmt_hours_spec (hours : ℝ) (h : 0 ≤ hours) :
    fmt_hours hours = renderSpec hours := by
  unfold fmt_hours renderSpec truncInt
  rw [if_pos h]

lemma normal_branch (lat_deg : ℝ) (d : Date) (h1 : -1 < cosH0 lat_deg d)
    (h2 : cosH0 lat_deg d < 1) :
    calculate_daylight lat_deg d =
      (2 * rad2deg (Real.arccos (cosH0 lat_deg d)) / 15, "Normal Day") ∧
    0 < 2 * rad2deg (Real.arccos (cosH0 lat_deg d)) / 15 ∧
    2 * rad2deg (Real.arccos (cosH0 lat_deg d)) / 15 < 24 := by
  have heq : calculate_daylight lat_deg d =
      (2 * rad2deg (Real.arccos (cosH0 lat_deg d)) / 15, "Normal Day") := by
    rw [calculate_daylight_eq, if_neg (not_le.mpr h1), if_neg (not_le.mpr h2)]
  have hπ := Real.pi_pos
  have ha_pos : 0 < Real.arccos (cosH0 lat_deg d) := Real.arccos_pos.mpr h2
  have ha_lt : Real.arccos (cosH0 lat_deg d) < Real.pi := by
    have h := Real.strictAntiOn_arccos (Set.mem_Icc.mpr ⟨le_refl _, by norm_num⟩)
      (Set.mem_Icc.mpr ⟨h1.le, h2.le⟩) h1
    rwa [Real.arccos_neg_one] at h
  refine ⟨heq, ?_, ?_⟩
  · have hd : 0 < Real.arccos (cosH0 lat_deg d) * 180 / Real.pi :=
      div_pos (mul_pos ha_pos (by norm_num)) hπ
    unfold rad2deg
    linarith
  · have hd : Real.arccos (cosH0 lat_deg d) * 180 / Real.pi < 180 := by
      rw [div_lt_iff₀ hπ]
      nlinarith
    unfold rad2deg
    linarith

/-- C3: the DaylightResult invariant: duration 24 exactly for polar day,
duration 0 exactly for polar night, and a normal day has duration strictly
between 0 and 24. -/
theorem daylight_invariant (lat_deg : ℝ) (d : Date) :
    ((calculate_daylight lat_deg d).1 = 24 ↔
      (calculate_daylight lat_deg d).2 = "Polar Day") ∧
    ((calculate_daylight lat_deg d).1 = 0 ↔
      (calculate_daylight lat_deg d).2 = "Polar Night") ∧
    ((calculate_daylight lat_deg d).2 = "Normal Day" →
      0 < (calculate_daylight lat_deg d).1 ∧
        (calculate_daylight lat_deg d).1 < 24) := by
  rcases le_or_lt (cosH0 lat_deg d) (-1) with h | h1
  · rw [calculate_daylight_eq, if_pos h]
    exact ⟨by simp, by simp, by simp⟩
  · rcases le_or_lt 1 (cosH0 lat_deg d) with h2 | h2
    · rw [calculate_daylight_eq, if_neg (not_le.mpr h1), if_pos h2]
      exact ⟨by simp, by simp, by simp⟩
    · obtain ⟨heq, hpos, hlt⟩ := normal_branch lat_deg d h1 h2
      rw [heq]
      refine ⟨⟨fun hd => absurd hd (ne_of_lt hlt), fun hs => by simp at hs⟩,
        ⟨fun hd => absurd hd.symm (ne_of_lt hpos), fun hs => by simp at hs⟩,
        fun _ => ⟨hpos, hlt⟩⟩

theorem daylight_invariant_witness :
    ((calculate_daylight 0 ⟨2023, 1⟩).1 = 24 ↔
      (calculate_daylight 0 ⟨2023, 1⟩).2 = "Polar Day") ∧
    ((calculate_daylight 0 ⟨2023, 1⟩).1 = 0 ↔
      (calculate_daylight 0 ⟨2023, 1⟩).2 = "Polar Night") ∧
    ((calculate_daylight 0 ⟨2023, 1⟩).2 = "Normal Day" →
      0 < (calculate_daylight 0 ⟨2023, 1⟩).1 ∧
        (calculate_daylight 0 ⟨2023, 1⟩).1 < 24) :=
  daylight_invariant 0 ⟨2023, 1⟩

lemma cos_deg2rad_ninety : Real.cos (deg2rad 90) = 0 := by
  unfold deg2rad
  have h : (90 : ℝ) * Real.pi / 180 = Real.pi / 2 := by ring
  rw [h, Real.cos_pi_div_two]

lemma cosH0_ninety (d : Date) : cosH0 90 d = 0 := by
  unfold cosH0
  rw [cos_deg2rad_ninety, zero_mul, div_zero]

/-- C4: the code performs no zero-denominator check.  At latitude 90 the
denominator `cos(phi) * cos(delta)` is exactly zero, yet `calculate_daylight`
divides anyway and returns a classified result (duration 12, Normal Day,
under exact real semantics where x / 0 = 0) instead of failing with an
arithmetic-domain error as the specification requires. -/
theorem zero_denominator_unguarded :
    Real.cos (deg2rad 90) * Real.cos (solar_declination_rad ⟨2023, 1⟩) = 0 ∧
    calculate_daylight 90 ⟨2023, 1⟩ = (12, "Normal Day") := by
  constructor
  · rw [cos_deg2rad_ninety, zero_mul]
  · rw [calculate_daylight_eq, cosH0_ninety]
    rw [if_neg (by norm_num), if_neg (by norm_num), Real.arccos_zero]
    have h12 : 2 * rad2deg (Real.pi / 2) / 15 = 12 := by
      unfold rad2deg
      have hπ := Real.pi_ne_zero
      field_simp
      ring
    rw [h12]

theorem calculate_daylight_formula_witness :
    calculate_daylight 90 ⟨2023, 2⟩ =
      (2 * rad2deg (Real.arccos (cosH0 90 ⟨2023, 2⟩)) / 15, "Normal Day") :=
  (calculate_daylight_formula 90 ⟨2023, 2⟩).2.2
    ⟨by rw [cosH0_ninety]; norm_num, by rw [cosH0_ninety]; norm_num⟩

theorem fmt_hours_spec_witness :
    fmt_hours 12.5 = "12h 30m" ∧ fmt_hours 5.9999 = "6h 0m" := by
  constructor
  · rw [fmt_hours_spec 12.5 (by norm_num)]
    have hf : ⌊(12.5 : ℝ)⌋ = 12 := by
      rw [Int.floor_eq_iff]
      norm_num
    have hr : roundHalfEven (((12.5 : ℝ) - ((12 : ℤ) : ℝ)) * 60) = 30 := by
      have h30 : ((12.5 : ℝ) - ((12 : ℤ) : ℝ)) * 60 = 30 := by
        push_cast
        norm_num
      have hf30 : ⌊(30 : ℝ)⌋ = 30 := by
        rw [Int.floor_eq_iff]
        norm_num
      simp only [roundHalfEven, h30, hf30]
      rw [if_pos (by push_cast; norm_num)]
    simp only [renderSpec, hf, hr]
    rw [if_neg (by norm_num)]
    decide
  · rw [fmt_hours_spec 5.9999 (by norm_num)]
    have hf : ⌊(5.9999 : ℝ)⌋ = 5 := by
      rw [Int.floor_eq_iff]
      norm_num
    have hr : roundHalfEven (((5.9999 : ℝ) - ((5 : ℤ) : ℝ)) * 60) = 60 := by
      have h59 : ((5.9999 : ℝ) - ((5 : ℤ) : ℝ)) * 60 = 59.994 := by
        push_cast
        norm_num
      have hf59 : ⌊(59.994 : ℝ)⌋ = 59 := by
        rw [Int.floor_eq_iff]
        norm_num
      simp only [roundHalfEven, h59, hf59]
      rw [if_neg (by push_cast; norm_num), if_pos (by push_cast; norm_num)]
      norm_num
    simp only [renderSpec, hf, hr]
    rw [if_pos (by norm_num)]
    decide

lemma daysInYear_pos (y : ℕ) : 1 ≤ daysInYear y := by
  unfold daysInYear
  split <;> omega

lemma tableLoop_year (lat_deg : ℝ) (y : ℕ) :
    ∀ m k, k + m = daysInYear y + 1 → 1 ≤ m →
    tableLoop lat_deg ⟨y, k⟩ ⟨y + 1, 1⟩ =
      (List.range m).map (fun i => mkRow lat_deg ⟨y, k + i⟩) := by
  intro m
  induction m with
  | zero => omega
  | succ m ih =>
    intro k hk _
    have hguard : Date.lt ⟨y, k⟩ ⟨y + 1, 1⟩ = true := by simp [Date.lt]
    rw [tableLoop, if_pos hguard]
    rcases Nat.eq_zero_or_pos m with hm | hm
    · subst hm
      have hk' : k = daysInYear y := by omega
      have hnext : Date.next ⟨y, k⟩ = ⟨y + 1, 1⟩ := by
        simp [Date.next, hk']
      rw [hnext, tableLoop, if_neg (by simp [Date.lt])]
      simp [List.range_succ]
    · have hklt : k < daysInYear y := by omega
      have hnext : Date.next ⟨y, k⟩ = ⟨y, k + 1⟩ := by
        simp [Date.next, hklt]
      rw [hnext, ih (k + 1) (by omega) hm]
      rw [List.range_succ_eq_map, List.map_cons, List.map_map]
      have harg : ∀ i : ℕ, k + 1 + i = k + (i + 1) := by omega
      simp [Function.comp, harg]

/-- C5: the generator walks every day of the year in ascending order,
building one row per day from one invocation of the daylight calculator
and the declination estimator, and terminates after exactly 365 rows for
non-leap years and 366 for leap years (proleptic Gregorian rule), with no
gaps and no duplicates (row `i` carries day-of-year `i + 1`). -/
theorem generate_lookup_table_spec (lat_deg : ℝ) (y : ℕ) :
    generate_lookup_table lat_deg y =
      (List.range (daysInYear y)).map (fun i => mkRow lat_deg ⟨y, 1 + i⟩) ∧
    (generate_lookup_table lat_deg y).map Row.date =
      (List.range (daysInYear y)).map (fun i => (⟨y, 1 + i⟩ : Date)) ∧
    (generate_lookup_table lat_deg y).length =
      (if isLeap y then 366 else 365) := by
  have h := tableLoop_year lat_deg y (daysInYear y) 1 (by omega)
    (daysInYear_pos y)
  unfold generate_lookup_table
  refine ⟨h, ?_, ?_⟩
  · rw [h, List.map_map]
    simp [Function.comp, mkRow]
  · rw [h]
    simp [daysInYear]

lemma abs_declSeries_le (n : ℕ) : |declSeries n| ≤ 0.488929 := by
  unfold declSeries
  have c1 := Real.neg_one_le_cos (2 * Real.pi * ((n : ℝ) - 1) / 365)
  have c2 := Real.cos_le_one (2 * Real.pi * ((n : ℝ) - 1) / 365)
  have s1 := Real.neg_one_le_sin (2 * Real.pi * ((n : ℝ) - 1) / 365)
  have s2 := Real.sin_le_one (2 * Real.pi * ((n : ℝ) - 1) / 365)
  have c3 := Real.neg_one_le_cos (2 * (2 * Real.pi * ((n : ℝ) - 1) / 365))
  have c4 := Real.cos_le_one (2 * (2 * Real.pi * ((n : ℝ) - 1) / 365))
  have s3 := Real.neg_one_le_sin (2 * (2 * Real.pi * ((n : ℝ) - 1) / 365))
  have s4 := Real.sin_le_one (2 * (2 * Real.pi * ((n : ℝ) - 1) / 365))
  have c5 := Real.neg_one_le_cos (3 * (2 * Real.pi * ((n : ℝ) - 1) / 365))
  have c6 := Real.cos_le_one (3 * (2 * Real.pi * ((n : ℝ) - 1) / 365))
  have s5 := Real.neg_one_le_sin (3 * (2 * Real.pi * ((n : ℝ) - 1) / 365))
  have s6 := Real.sin_le_one (3 * (2 * Real.pi * ((n : ℝ) - 1) / 365))
  rw [abs_le]
  constructor <;> linarith

lemma cos_declSeries_pos (n : ℕ) : 0 < Real.cos (declSeries n) := by
  have h := abs_le.mp (abs_declSeries_le n)
  have hπ := Real.pi_gt_d6
  apply Real.cos_pos_of_mem_Ioo
  constructor <;> [linarith [h.1]; linarith [h.2]]

lemma cos_declSeries_ge (n : ℕ) : 0.8804 ≤ Real.cos (declSeries n) := by
  have h := abs_le.mp (abs_declSeries_le n)
  have hb := Real.one_sub_sq_div_two_le_cos (x := declSeries n)
  nlinarith [h.1, h.2]

/-- C10: the declination is bounded in absolute value by the sum 0.488929
of the absolute values of the seven series coefficients, hence its cosine
is strictly positive, so the denominator `cos(phi) * cos(delta)` of the
hour-angle formula can vanish only when `cos(phi)` does. -/
theorem declination_bounded (d : Date) :
    |solar_declination_rad d| ≤ 0.488929 ∧
    0 < Real.cos (solar_declination_rad d) ∧
    ∀ lat_deg : ℝ,
      Real.cos (deg2rad lat_deg) * Real.cos (solar_declination_rad d) = 0 →
      Real.cos (deg2rad lat_deg) = 0 := by
  refine ⟨abs_declSeries_le _, cos_declSeries_pos _, fun lat_deg h => ?_⟩
  rcases mul_eq_zero.mp h with h' | h'
  · exact h'
  · exact absurd h' (ne_of_gt (cos_declSeries_pos _))

theorem declination_bounded_witness :
    |solar_declination_rad ⟨2024, 1⟩| ≤ 0.488929 :=
  (declination_bounded ⟨2024, 1⟩).1

lemma h0_eq_neg_t : deg2rad (-0.833) = -deg2rad 0.833 := by
  unfold deg2rad
  ring

lemma t_mem : 0.0145385 ≤ deg2rad 0.833 ∧ deg2rad 0.833 ≤ 0.0145386 := by
  unfold deg2rad
  constructor <;> nlinarith [Real.pi_gt_d6, Real.pi_lt_d6]

lemma sin_t_pos : 0 < Real.sin (deg2rad 0.833) := by
  apply Real.sin_pos_of_pos_of_lt_pi
  · linarith [t_mem.1]
  · linarith [t_mem.2, Real.pi_gt_d6]

lemma sin_t_le : Real.sin (deg2rad 0.833) ≤ 0.0145386 :=
  le_of_lt (lt_of_lt_of_le (Real.sin_lt (by linarith [t_mem.1])) t_mem.2)

lemma cosH0_equator (d : Date) :
    cosH0 0 d =
      -(Real.sin (deg2rad 0.833) / Real.cos (solar_declination_rad d)) := by
  unfold cosH0
  have h0 : deg2rad 0 = 0 := by
    unfold deg2rad
    ring
  rw [h0, Real.sin_zero, Real.cos_zero, h0_eq_neg_t, Real.sin_neg]
  ring

lemma cosH0_equator_bounds (d : Date) :
    -0.01652 ≤ cosH0 0 d ∧ cosH0 0 d ≤ -Real.sin (deg2rad 0.833) := by
  rw [cosH0_equator]
  simp only [solar_declination_rad]
  have hcpos := cos_declSeries_pos (day_of_year d)
  have hcge := cos_declSeries_ge (day_of_year d)
  have hcle := Real.cos_le_one (declSeries (day_of_year d))
  have hspos := sin_t_pos
  have hsle := sin_t_le
  constructor
  · have h : Real.sin (deg2rad 0.833) /
        Real.cos (declSeries (day_of_year d)) ≤ 0.01652 := by
      rw [div_le_iff₀ hcpos]
      nlinarith
    linarith
  · have h : Real.sin (deg2rad 0.833) ≤
        Real.sin (deg2rad 0.833) / Real.cos (declSeries (day_of_year d)) := by
      rw [le_div_iff₀ hcpos]
      nlinarith
    linarith

lemma arccos_le_of_cos_le {x A : ℝ} (hA0 : 0 ≤ A) (hAπ : A ≤ Real.pi)
    (h : Real.cos A ≤ x) : Real.arccos x ≤ A := by
  have hm := Real.monotone_arcsin h
  rw [← Real.arccos_cos hA0 hAπ, Real.arccos_eq_pi_div_two_sub_arcsin,
    Real.arccos_eq_pi_div_two_sub_arcsin]
  linarith

lemma le_arccos_of_le_cos {x A : ℝ} (hA0 : 0 ≤ A) (hAπ : A ≤ Real.pi)
    (h : x ≤ Real.cos A) : A ≤ Real.arccos x := by
  have hm := Real.monotone_arcsin h
  rw [← Real.arccos_cos hA0 hAπ, Real.arccos_eq_pi_div_two_sub_arcsin,
    Real.arccos_eq_pi_div_two_sub_arcsin]
  linarith

lemma duration_eq (x : ℝ) :
    2 * rad2deg (Real.arccos x) / 15 = 24 * Real.arccos x / Real.pi := by
  unfold rad2deg
  field_simp
  ring

lemma equator_normal (d : Date) :
    (calculate_daylight 0 d).2 = "Normal Day" ∧
    12.1 ≤ (calculate_daylight 0 d).1 ∧
    (calculate_daylight 0 d).1 ≤ 12.14 := by
  obtain ⟨hlb, hub⟩ := cosH0_equator_bounds d
  have hspos := sin_t_pos
  have hsle := sin_t_le
  have hπl := Real.pi_gt_d6
  have hπu := Real.pi_lt_d6
  have ht := t_mem
  have h1 : -1 < cosH0 0 d := by linarith
  have h2 : cosH0 0 d < 1 := by linarith
  obtain ⟨heq, -, -⟩ := normal_branch 0 d h1 h2
  rw [heq]
  refine ⟨rfl, ?_, ?_⟩
  · show (12.1 : ℝ) ≤ 2 * rad2deg (Real.arccos (cosH0 0 d)) / 15
    rw [duration_eq]
    have hA0 : (0 : ℝ) ≤ 121 / 240 * Real.pi := by positivity
    have hAπ : 121 / 240 * Real.pi ≤ Real.pi := by nlinarith
    have hcosA : Real.cos (121 / 240 * Real.pi) = -Real.sin (Real.pi / 240) := by
      rw [← Real.sin_pi_div_two_sub]
      have e : Real.pi / 2 - 121 / 240 * Real.pi = -(Real.pi / 240) := by ring
      rw [e, Real.sin_neg]
    have hmono : Real.sin (Real.pi / 240) < Real.sin (deg2rad 0.833) := by
      apply Real.strictMonoOn_sin
      · constructor <;> nlinarith
      · constructor <;> nlinarith
      · nlinarith
    have hA_le : 121 / 240 * Real.pi ≤ Real.arccos (cosH0 0 d) := by
      apply le_arccos_of_le_cos hA0 hAπ
      rw [hcosA]
      linarith
    have e121 : (12.1 : ℝ) = 24 * (121 / 240 * Real.pi) / Real.pi := by
      field_simp
      ring_nf
    rw [e121]
    gcongr
  · show 2 * rad2deg (Real.arccos (cosH0 0 d)) / 15 ≤ (12.14 : ℝ)
    rw [duration_eq]
    have hA0 : (0 : ℝ) ≤ 607 / 1200 * Real.pi := by positivity
    have hAπ : 607 / 1200 * Real.pi ≤ Real.pi := by nlinarith
    have hcosA :
        Real.cos (607 / 1200 * Real.pi) = -Real.sin (7 * Real.pi / 1200) := by
      rw [← Real.sin_pi_div_two_sub]
      have e : Real.pi / 2 - 607 / 1200 * Real.pi = -(7 * Real.pi / 1200) := by
        ring
      rw [e, Real.sin_neg]
    have hsin7 : 0.0183 ≤ Real.sin (7 * Real.pi / 1200) := by
      have hcube := Real.sin_gt_sub_cube
        (x := 7 * Real.pi / 1200) (by nlinarith) (by nlinarith)
      have hu1 : (0.0183259 : ℝ) ≤ 7 * Real.pi / 1200 := by nlinarith
      have hu2 : 7 * Real.pi / 1200 ≤ 0.018326 := by nlinarith
      have hu3 : (7 * Real.pi / 1200) ^ 3 ≤ 0.018326 ^ 3 :=
        pow_le_pow_left₀ (by positivity) hu2 3
      nlinarith
    have hA_ge : Real.arccos (cosH0 0 d) ≤ 607 / 1200 * Real.pi := by
      apply arccos_le_of_cos_le hA0 hAπ
      rw [hcosA]
      linarith
    have e607 : (12.14 : ℝ) = 24 * (607 / 1200 * Real.pi) / Real.pi := by
      field_simp
      ring_nf
    rw [e607]
    gcongr

/-- C8: refuted as stated at a concrete input: at the equator the
refraction correction of -0.833 degrees lengthens every day to about 12.11
hours, which is not within 0.02 hours of 12.0. -/
theorem equator_not_near_twelve :
    ¬ |(calculate_daylight 0 ⟨2024, 1⟩).1 - 12| ≤ 0.02 := by
  obtain ⟨-, h1, -⟩ := equator_normal ⟨2024, 1⟩
  rw [abs_le]
  rintro ⟨-, hb⟩
  linarith

/-- C8 amended: at the equator every date yields a Normal Day whose
duration is within 0.02 hours of 12.12 (not of 12.0: the -0.833 degree
correction adds about 0.11 hours). -/
theorem equator_duration_near_half_day (d : Date) :
    (calculate_daylight 0 d).2 = "Normal Day" ∧
    |(calculate_daylight 0 d).1 - 12.12| ≤ 0.02 := by
  obtain ⟨hc, h1, h2⟩ := equator_normal d
  exact ⟨hc, abs_le.mpr ⟨by linarith, by linarith⟩⟩

lemma pair_bound (a b r c s : ℝ) (hcs : s ^ 2 + c ^ 2 = 1)
    (hr : 0 ≤ r) (hab : a ^ 2 + b ^ 2 ≤ r ^ 2) : |a * c + b * s| ≤ r := by
  have hsq : (a * c + b * s) ^ 2 ≤ r ^ 2 := by
    nlinarith [sq_nonneg (b * c - a * s)]
  rw [abs_le]
  constructor <;> nlinarith [sq_nonneg (a * c + b * s + r),
    sq_nonneg (a * c + b * s - r)]

lemma abs_declSeries_le' (n : ℕ) : |declSeries n| ≤ 0.422854 := by
  unfold declSeries
  have p1 := pair_bound (-0.399912) 0.070257 0.40604
    (Real.cos (2 * Real.pi * ((n : ℝ) - 1) / 365))
    (Real.sin (2 * Real.pi * ((n : ℝ) - 1) / 365))
    (Real.sin_sq_add_cos_sq _) (by norm_num) (by norm_num)
  have p2 := pair_bound (-0.006758) 0.000907 0.006819
    (Real.cos (2 * (2 * Real.pi * ((n : ℝ) - 1) / 365)))
    (Real.sin (2 * (2 * Real.pi * ((n : ℝ) - 1) / 365)))
    (Real.sin_sq_add_cos_sq _) (by norm_num) (by norm_num)
  have p3 := pair_bound (-0.002697) 0.001480 0.003077
    (Real.cos (3 * (2 * Real.pi * ((n : ℝ) - 1) / 365)))
    (Real.sin (3 * (2 * Real.pi * ((n : ℝ) - 1) / 365)))
    (Real.sin_sq_add_cos_sq _) (by norm_num) (by norm_num)
  rw [abs_le] at *
  constructor <;> [linarith [p1.1, p2.1, p3.1]; linarith [p1.2, p2.2, p3.2]]

set_option maxHeartbeats 1000000 in
/-- C7 amended: strictly below about 65 degrees of latitude (the provable
safe region once the -0.833 degree correction and the declination bound
0.422854 rad are accounted for) every date is a Normal Day with duration
strictly between 0 and 24 hours. -/
theorem below_polar_circle_normal (lat_deg : ℝ) (d : Date)
    (h : |lat_deg| ≤ 64.9) :
    (calculate_daylight lat_deg d).2 = "Normal Day" ∧
    0 < (calculate_daylight lat_deg d).1 ∧
    (calculate_daylight lat_deg d).1 < 24 := by
  have hδ := abs_le.mp (abs_declSeries_le' (day_of_year d))
  have hπl := Real.pi_gt_d6
  have hπu := Real.pi_lt_d6
  have habseq : |deg2rad lat_deg| = |lat_deg| * Real.pi / 180 := by
    unfold deg2rad
    rw [abs_div, abs_mul, abs_of_pos Real.pi_pos]
    norm_num
  have hφb : |deg2rad lat_deg| ≤ 1.1327189 := by
    rw [habseq]
    nlinarith [abs_nonneg lat_deg, Real.pi_pos]
  have habs := abs_le.mp hφb
  have hsle := sin_t_le
  have hspos := sin_t_pos
  have ht := t_mem
  have hsum : |deg2rad lat_deg + declSeries (day_of_year d)| ≤ 1.5555729 := by
    have h1 := abs_add (deg2rad lat_deg) (declSeries (day_of_year d))
    have h2 := abs_declSeries_le' (day_of_year d)
    linarith
  have hcos_sum :
      0.015222 ≤ Real.cos (deg2rad lat_deg + declSeries (day_of_year d)) := by
    have hc1 :
        Real.cos (deg2rad lat_deg + declSeries (day_of_year d)) =
          Real.cos |deg2rad lat_deg + declSeries (day_of_year d)| :=
      (Real.cos_abs _).symm
    have hc2 : Real.cos (1.5555729 : ℝ) ≤
        Real.cos |deg2rad lat_deg + declSeries (day_of_year d)| :=
      Real.cos_le_cos_of_nonneg_of_le_pi (abs_nonneg _) (by linarith) hsum
    have hc3 : Real.cos (1.5555729 : ℝ) =
        Real.sin (Real.pi / 2 - 1.5555729) :=
      (Real.sin_pi_div_two_sub _).symm
    have hw1 : (0.0152231 : ℝ) ≤ Real.pi / 2 - 1.5555729 := by nlinarith
    have hw2 : Real.pi / 2 - (1.5555729 : ℝ) ≤ 0.0152236 := by nlinarith
    have hcube := Real.sin_gt_sub_cube
      (x := Real.pi / 2 - 1.5555729) (by nlinarith) (by nlinarith)
    have hw3 : (Real.pi / 2 - (1.5555729 : ℝ)) ^ 3 ≤ 0.0152236 ^ 3 :=
      pow_le_pow_left₀ (by nlinarith) hw2 3
    nlinarith [hc1, hc2, hc3, hcube, hw3]
  have hcosφ : 0 < Real.cos (deg2rad lat_deg) :=
    Real.cos_pos_of_mem_Ioo ⟨by nlinarith [habs.1], by nlinarith [habs.2]⟩
  have hcosδ : 0 < Real.cos (declSeries (day_of_year d)) :=
    cos_declSeries_pos _
  have hden : 0 < Real.cos (deg2rad lat_deg) *
      Real.cos (declSeries (day_of_year d)) := mul_pos hcosφ hcosδ
  have hc : cosH0 lat_deg d =
      (-Real.sin (deg2rad 0.833) -
          Real.sin (deg2rad lat_deg) * Real.sin (declSeries (day_of_year d))) /
        (Real.cos (deg2rad lat_deg) *
          Real.cos (declSeries (day_of_year d))) := by
    unfold cosH0 solar_declination_rad
    rw [h0_eq_neg_t, Real.sin_neg]
  have hgt : -1 < cosH0 lat_deg d := by
    rw [hc, lt_div_iff₀ hden]
    have hadd := Real.cos_add (deg2rad lat_deg) (declSeries (day_of_year d))
    nlinarith [hcos_sum, hsle]
  have hcosdiff :
      0 < Real.cos (deg2rad lat_deg - declSeries (day_of_year d)) := by
    have h1 := abs_add (deg2rad lat_deg) (-declSeries (day_of_year d))
    rw [abs_neg, ← sub_eq_add_neg] at h1
    have h2 := abs_declSeries_le' (day_of_year d)
    have h3 : |deg2rad lat_deg - declSeries (day_of_year d)| ≤ 1.5555729 := by
      linarith
    have h4 := abs_lt.mp (lt_of_le_of_lt h3
      (by nlinarith : (1.5555729 : ℝ) < Real.pi / 2))
    exact Real.cos_pos_of_mem_Ioo ⟨h4.1, h4.2⟩
  have hlt : cosH0 lat_deg d < 1 := by
    rw [hc, div_lt_one hden]
    have hsub := Real.cos_sub (deg2rad lat_deg) (declSeries (day_of_year d))
    nlinarith [hspos, hcosdiff]
  obtain ⟨heq, hpos, hlt24⟩ := normal_branch lat_deg d hgt hlt
  rw [heq]
  exact ⟨rfl, hpos, hlt24⟩

theorem below_polar_circle_normal_witness :
    |(0 : ℝ)| ≤ 64.9 ∧
    ((calculate_daylight 0 ⟨2024, 2⟩).2 = "Normal Day" ∧
      0 < (calculate_daylight 0 ⟨2024, 2⟩).1 ∧
      (calculate_daylight 0 ⟨2024, 2⟩).1 < 24) :=
  ⟨by norm_num, below_polar_circle_normal 0 ⟨2024, 2⟩ (by norm_num)⟩

lemma declSeries_172_lb : (0.4055 : ℝ) ≤ declSeries 172 := by
  simp only [declSeries]
  have e1 : 2 * Real.pi * (((172 : ℕ) : ℝ) - 1) / 365 =
      Real.pi - 23 * Real.pi / 365 := by
    push_cast
    ring
  rw [e1]
  have e2 : 2 * (Real.pi - 23 * Real.pi / 365) =
      2 * Real.pi - 46 * Real.pi / 365 := by ring
  have e3 : 3 * (Real.pi - 23 * Real.pi / 365) =
      Real.pi - 69 * Real.pi / 365 + 2 * Real.pi := by ring
  rw [Real.cos_pi_sub, Real.sin_pi_sub, e2, e3, Real.cos_add_two_pi,
    Real.sin_add_two_pi, Real.cos_pi_sub, Real.sin_pi_sub]
  have c2 : Real.cos (2 * Real.pi - 46 * Real.pi / 365) =
      Real.cos (46 * Real.pi / 365) := by
    rw [Real.cos_sub, Real.cos_two_pi, Real.sin_two_pi]
    ring
  have s2 : Real.sin (2 * Real.pi - 46 * Real.pi / 365) =
      -Real.sin (46 * Real.pi / 365) := by
    rw [Real.sin_sub, Real.cos_two_pi, Real.sin_two_pi]
    ring
  rw [c2, s2]
  have hπl := Real.pi_gt_d6
  have hπu := Real.pi_lt_d6
  have hu1l : (0.1979633 : ℝ) ≤ 23 * Real.pi / 365 := by nlinarith
  have hu1u : 23 * Real.pi / 365 ≤ 0.1979634 := by nlinarith
  have hcos1 : (0.98040 : ℝ) ≤ Real.cos (23 * Real.pi / 365) := by
    have hb := Real.one_sub_sq_div_two_le_cos (x := 23 * Real.pi / 365)
    nlinarith
  have hsin1 : (0.19602 : ℝ) ≤ Real.sin (23 * Real.pi / 365) := by
    have hcube := Real.sin_gt_sub_cube
      (x := 23 * Real.pi / 365) (by nlinarith) (by nlinarith)
    have hc3 : (23 * Real.pi / 365) ^ 3 ≤ 0.1979634 ^ 3 :=
      pow_le_pow_left₀ (by nlinarith) hu1u 3
    nlinarith
  have hcos2 : Real.cos (46 * Real.pi / 365) ≤ 1 := Real.cos_le_one _
  have hsin2 : Real.sin (46 * Real.pi / 365) ≤ 0.3959268 := by
    have hs := Real.sin_lt (x := 46 * Real.pi / 365) (by nlinarith)
    nlinarith
  have hcos3 : 0 ≤ Real.cos (69 * Real.pi / 365) := by
    apply Real.cos_nonneg_of_mem_Icc
    constructor <;> nlinarith
  have hsin3 : 0 ≤ Real.sin (69 * Real.pi / 365) :=
    Real.sin_nonneg_of_nonneg_of_le_pi (by positivity) (by nlinarith)
  nlinarith

/-- C7: refuted as stated: latitude 66.4 lies strictly below 66.5, yet on
day-of-year 172 of 2024 (June 20, near the solstice) the code returns
Polar Day with 24 hours, because the -0.833 degree correction moves the
polar-day boundary to about 65.7 degrees. -/
theorem polar_day_below_66p5 :
    |(66.4 : ℝ)| < 66.5 ∧
    calculate_daylight 66.4 ⟨2024, 172⟩ = (24, "Polar Day") := by
  constructor
  · rw [abs_of_pos (by norm_num)]
    norm_num
  · have hδl := declSeries_172_lb
    have hδu := abs_le.mp (abs_declSeries_le 172)
    have hπl := Real.pi_gt_d6
    have hπu := Real.pi_lt_d6
    have ht := t_mem
    have hφl : (1.1588983 : ℝ) ≤ deg2rad 66.4 := by
      unfold deg2rad
      nlinarith
    have hφu : deg2rad 66.4 ≤ 1.1588988 := by
      unfold deg2rad
      nlinarith
    have hkey : Real.cos (deg2rad 66.4 + declSeries 172) ≤
        Real.sin (deg2rad 0.833) := by
      have hw : Real.cos (deg2rad 66.4 + declSeries 172) =
          Real.sin (Real.pi / 2 - (deg2rad 66.4 + declSeries 172)) :=
        (Real.sin_pi_div_two_sub _).symm
      rw [hw]
      have hmono := Real.strictMonoOn_sin
        (Set.mem_Icc.mpr ⟨by nlinarith, by nlinarith⟩)
        (Set.mem_Icc.mpr ⟨by nlinarith [ht.1], by nlinarith [ht.2]⟩)
        (show Real.pi / 2 - (deg2rad 66.4 + declSeries 172) < deg2rad 0.833
          by nlinarith [ht.1])
      exact le_of_lt hmono
    have hcosφ : 0 < Real.cos (deg2rad 66.4) :=
      Real.cos_pos_of_mem_Ioo ⟨by nlinarith, by nlinarith⟩
    have hcosδ : 0 < Real.cos (declSeries 172) := cos_declSeries_pos 172
    have hden : 0 < Real.cos (deg2rad 66.4) * Real.cos (declSeries 172) :=
      mul_pos hcosφ hcosδ
    have hc : cosH0 66.4 ⟨2024, 172⟩ =
        (-Real.sin (deg2rad 0.833) -
            Real.sin (deg2rad 66.4) * Real.sin (declSeries 172)) /
          (Real.cos (deg2rad 66.4) * Real.cos (declSeries 172)) := by
      unfold cosH0 solar_declination_rad
      rw [h0_eq_neg_t, Real.sin_neg]
      norm_num [day_of_year]
    have hfinal : cosH0 66.4 ⟨2024, 172⟩ ≤ -1 := by
      rw [hc, div_le_iff₀ hden]
      have hadd := Real.cos_add (deg2rad 66.4) (declSeries 172)
      nlinarith [hkey]
    rw [calculate_daylight_eq, if_pos hfinal]

end Daylight
